import Mathlib

/-!
Verification of the uaifood order workflow backend.

Shallow embedding of the controllers, validation schemas and middlewares of
the Express/Prisma backend (`src/backend/src`).  Monetary values and JSON
numbers are modelled as exact rationals (`ℚ`); database ids as `Int`; the
relational store as explicit lists of rows.  The Prisma nested create of an
order together with its lines is modelled as one atomic store insertion
(referential integrity enforced by the relational store), while the separate
`prisma.order.update` that writes the computed total is a second, independent
step whose possible failure is modelled by a boolean parameter.
-/

namespace Uaifood

/-- A catalog item (`Item` model: id, description, unitPrice, imageUrl,
categoryId).  Prices are exact rationals. -/
structure Item where
  id : Int
  description : String
  unitPrice : ℚ
  imageUrl : String
  categoryId : Int
deriving Repr, DecidableEq

/-- One requested order line as it appears in the JSON request body:
`{itemId, quantity}` plus a possible caller-supplied `price` field, which the
backend never reads (the controller maps each request item to
`{itemId, quantity}` only). -/
structure ReqItem where
  itemId : Int
  quantity : ℚ
  price : ℚ
deriving Repr, DecidableEq

/-- A persisted order row (`Order` model: id, clientId, paymentMethod,
status, total). -/
structure OrderRow where
  id : Int
  clientId : Int
  paymentMethod : String
  status : String
  total : ℚ
deriving Repr, DecidableEq

/-- A persisted order line row (`OrderItem` model: orderId, itemId,
quantity). -/
structure OrderItemRow where
  orderId : Int
  itemId : Int
  quantity : ℚ
deriving Repr, DecidableEq

/-- The relational store: catalog items, orders, order lines, and the
autoincrement counter for order ids. -/
structure Store where
  items : List Item
  orders : List OrderRow
  orderItems : List OrderItemRow
  nextOrderId : Int
deriving Repr, DecidableEq

/-- Outcome of a request handler: HTTP status code, the order returned in the
response body (when any), and the store after the request. -/
structure HttpOutcome where
  code : Nat
  body : Option OrderRow
  store : Store
deriving Repr, DecidableEq

/-- Lookup of a catalog item by id in an item list. -/
def findItemIn (items : List Item) (iid : Int) : Option Item :=
  items.find? (fun it => it.id == iid)

/-- Lookup of a catalog item by id, as `prisma.item.findUnique` does. -/
def findItem (s : Store) (iid : Int) : Option Item :=
  findItemIn s.items iid

/-- Whether an itemId references an existing catalog item (the referential
integrity the relational store enforces on `OrderItem.itemId`). -/
def itemExistsIn (s : Store) (iid : Int) : Bool :=
  s.items.any (fun it => it.id == iid)

/-- The current unit price for an item id in an item list (0 if the item
does not exist; only used under existence). -/
def unitPriceIn (items : List Item) (iid : Int) : ℚ :=
  ((findItemIn items iid).map Item.unitPrice).getD 0

/-- The catalog's current unit price for an item id. -/
def unitPriceOf (s : Store) (iid : Int) : ℚ :=
  unitPriceIn s.items iid

/-- Embedding of `prisma.order.findUnique` by order id. -/
def findOrder (s : Store) (id : Int) : Option OrderRow :=
  s.orders.find? (fun o => o.id == id)

/-- Embedding of the `prisma.order.update` write of a total on the order list. -/
def setTotal (orders : List OrderRow) (oid : Int) (total : ℚ) : List OrderRow :=
  orders.map (fun o => if o.id == oid then { o with total := total } else o)

/-- Embedding of the `prisma.order.update` write of a status on the order list. -/
def setStatus (orders : List OrderRow) (oid : Int) (nxt : String) : List OrderRow :=
  orders.map (fun q => if q.id == oid then { q with status := nxt } else q)

/-- Order lines belonging to one order. -/
def linesOf (s : Store) (orderId : Int) : List OrderItemRow :=
  s.orderItems.filter (fun oi => oi.orderId == orderId)

/-- Embedding of `createOrder` (orderController.js).  Steps, exactly as in the source:
1. reject an empty `items` list with 400 before touching the store;
2. `prisma.order.create` with `status: "pending"`, `total: 0` and a nested
   create of all order lines (atomic; a nonexistent itemId violates the
   foreign key, the whole create is rolled back and the generic catch
   answers 500);
3. compute the total by the reduce
   `sum + oi.item.unitPrice * oi.quantity` over the included lines;
4. `prisma.order.update` writing the computed total — a second, separate
   write whose failure (`totalUpdateSucceeds = false`) falls into the
   generic catch (500) and leaves the store as after step 2. -/
def createOrder (s : Store) (clientId : Int) (paymentMethod : String)
    (items : List ReqItem) (totalUpdateSucceeds : Bool) : HttpOutcome :=
  if items.isEmpty then ⟨400, none, s⟩
  else if items.all (fun i => itemExistsIn s i.itemId) then
    let oid := s.nextOrderId
    let newLines := items.map (fun i => OrderItemRow.mk oid i.itemId i.quantity)
    let orderRow : OrderRow := ⟨oid, clientId, paymentMethod, "pending", 0⟩
    let s1 : Store := { s with orders := s.orders ++ [orderRow],
                               orderItems := s.orderItems ++ newLines,
                               nextOrderId := oid + 1 }
    let total := newLines.foldl (fun sum oi => sum + unitPriceOf s1 oi.itemId * oi.quantity) 0
    if totalUpdateSucceeds then
      let s2 : Store := { s1 with orders := setTotal s1.orders oid total }
      ⟨201, some { orderRow with total := total }, s2⟩
    else ⟨500, none, s1⟩
  else ⟨500, none, s⟩

/-- Embedding of `STATUS_FLOW` (orderController.js): the rigid status lookup table.  A JS
object lookup yields `undefined` outside its keys and `null` at
`delivered`; both are falsy, modelled as `none`. -/
def STATUS_FLOW : String → Option String
  | "pending" => some "preparing"
  | "preparing" => some "delivering"
  | "delivering" => some "delivered"
  | _ => none

/-- Position of a status in the fixed forward sequence (specification-side
measure used to state that advancing never moves backward or skips). -/
def statusRank : String → Nat
  | "pending" => 0
  | "preparing" => 1
  | "delivering" => 2
  | _ => 3

/-- Embedding of `updateOrderStatus` (orderController.js): load the order (404 when
missing), look up the next status in `STATUS_FLOW` (400 when there is none),
otherwise persist and return the advanced order. -/
def updateOrderStatus (s : Store) (id : Int) : HttpOutcome :=
  match findOrder s id with
  | none => ⟨404, none, s⟩
  | some o =>
    match STATUS_FLOW o.status with
    | none => ⟨400, none, s⟩
    | some nxt =>
      let s2 : Store := { s with orders := setStatus s.orders id nxt }
      ⟨200, some { o with status := nxt }, s2⟩

/-- Embedding of `getMyOrderById` (orderController.js): load the order (404 when missing),
then the ownership check (403 when the order belongs to another client). -/
def getMyOrderById (s : Store) (clientId : Int) (id : Int) : HttpOutcome :=
  match findOrder s id with
  | none => ⟨404, none, s⟩
  | some o =>
    if o.clientId != clientId then ⟨403, none, s⟩
    else ⟨200, some o, s⟩

/-- The payment method enum of `orderSchema` (orderSchema.js). -/
def paymentMethods : List String := ["CASH", "DEBIT", "CREDIT", "PIX"]

/-- The JSON body of `POST /orders`. -/
structure OrderBody where
  paymentMethod : String
  items : List ReqItem
deriving Repr, DecidableEq

/-- Embedding of `orderSchema` (orderSchema.js) as a boolean acceptance check:
`paymentMethod` must be one of the four enum values; `items` must be a
nonempty array; each `itemId` must be an integer (already enforced by the
`Int` type of the field here); each `quantity` is checked by
`z.number().positive(...)` — strictly positive, with no integrality check. -/
def orderSchemaCheck (b : OrderBody) : Bool :=
  paymentMethods.contains b.paymentMethod &&
  b.items.all (fun i => decide (0 < i.quantity)) &&
  !b.items.isEmpty

/-- The `POST /orders` pipeline after authentication and role checks:
`validate(orderSchema)` answers 400 on a schema violation before the
controller runs; otherwise `createOrder` handles the request. -/
def postOrders (s : Store) (clientId : Int) (b : OrderBody)
    (totalUpdateSucceeds : Bool) : HttpOutcome :=
  if orderSchemaCheck b then createOrder s clientId b.paymentMethod b.items totalUpdateSucceeds
  else ⟨400, none, s⟩

/-- A persisted user row (`User` model: id, name, phone, email, hashed
password, type ∈ {CLIENT, ADMIN}). -/
structure UserRow where
  id : Int
  name : String
  phone : String
  email : String
  password : String
  type : String
deriving Repr, DecidableEq

/-- The JSON body of `POST /register`, including a `role` field a caller may
send; the controller destructures only name, phone, email and password and
never reads it. -/
structure RegisterBody where
  name : String
  phone : String
  email : String
  password : String
  role : String
deriving Repr, DecidableEq

/-- Modelled from the spec: password hashing (bcrypt) is an external
collaborator (§6), absent from src; modelled as an abstract injective
encoding of the plaintext. -/
def bcryptHash (plain : String) : String :=
  String.append "bcrypt$" plain

/-- Embedding of `createUser` (userController.js): hash the password, then
`prisma.user.create` with `type: "CLIENT"` hardcoded (the type never comes
from the body).  A duplicate email violates the unique constraint (Prisma
P2002) and is answered with 400, leaving the store unchanged. -/
def createUser (db : List UserRow) (nextUserId : Int) (b : RegisterBody) :
    Nat × Option UserRow × List UserRow :=
  if db.any (fun u => u.email == b.email) then (400, none, db)
  else
    let u : UserRow :=
      ⟨nextUserId, b.name, b.phone, b.email, bcryptHash b.password, "CLIENT"⟩
    (201, some u, db ++ [u])

/-- The decoded principal `{id, type}` a JWT carries. -/
structure Principal where
  id : Int
  type : String
deriving Repr, DecidableEq

/-- JS strings carried in headers and tokens, modelled as explicit
character sequences. -/
abbrev JsString := List Char

/-- The token extraction of `autenticarToken` (autenticarToken.js): the
`Authorization` header must start with `Bearer `; the token is
`authHeader.split(" ")[1]`, which — since the first space sits right after
`Bearer` — is the character run after that space up to the next space.  An
empty token string is falsy in JS and is treated as absent. -/
def extractBearer (authHeader : Option JsString) : Option JsString :=
  match authHeader with
  | none => none
  | some h =>
    if "Bearer ".toList.isPrefixOf h then
      let t := (h.drop 7).takeWhile (fun c => c ≠ ' ')
      if t = [] then none else some t
    else none

/-- Embedding of `verifyToken` (jwtConfig.js): a blacklisted token throws; otherwise the
outcome of `jwt.verify` decides.  The signature/expiry verification of the
external jsonwebtoken library is a parameter `jwtVerify` giving the decoded
principal of a valid token and `none` for a malformed or expired one. -/
def verifyToken (blacklist : List JsString) (jwtVerify : JsString → Option Principal)
    (token : JsString) : Option Principal :=
  if blacklist.contains token then none else jwtVerify token

/-- Embedding of `autenticarToken` (autenticarToken.js): no token at all answers 401; a
token that fails `verifyToken` (malformed, expired or blacklisted) falls
into the catch, which answers 403; a valid token yields the decoded
principal. -/
def autenticarToken (blacklist : List JsString) (jwtVerify : JsString → Option Principal)
    (authHeader : Option JsString) : Except Nat Principal :=
  match extractBearer authHeader with
  | none => Except.error 401
  | some t =>
    match verifyToken blacklist jwtVerify t with
    | none => Except.error 403
    | some p => Except.ok p

/-! ### Helper lemmas -/

/-- Mapping preserves emptiness. -/
theorem isEmpty_map {α β : Type} (f : α → β) (l : List α) :
    (l.map f).isEmpty = l.isEmpty := by
  cases l <;> rfl

/-- Folding `sum + f x` over a list, as the JS `reduce` does, computes the
sum of the mapped values. -/
theorem foldl_add_map_sum {α : Type} (f : α → ℚ) (l : List α) (a : ℚ) :
    l.foldl (fun sum x => sum + f x) a = a + (l.map f).sum := by
  induction l generalizing a with
  | nil => simp
  | cons x t ih => simp [List.foldl_cons, ih, add_assoc]

/-- Looking up an order by id after `setStatus` finds the updated row. -/
theorem find?_setStatus (l : List OrderRow) (id : Int) (nxt : String) :
    (setStatus l id nxt).find? (fun o => o.id == id) =
      (l.find? (fun o => o.id == id)).map (fun o => { o with status := nxt }) := by
  induction l with
  | nil => rfl
  | cons a t ih =>
    simp only [setStatus] at ih ⊢
    by_cases ha : a.id = id
    · simp [List.find?_cons, ha]
    · have hcond : (a.id == id) = false := by simp [ha]
      have hhead : (if (a.id == id) = true then { a with status := nxt } else a) = a := by
        simp [hcond]
      simp only [List.map_cons]
      rw [hhead]
      simp only [List.find?_cons, hcond]
      exact ih

/-- Looking up an order by id after `setTotal` finds the updated row. -/
theorem find?_setTotal (l : List OrderRow) (id : Int) (t : ℚ) :
    (setTotal l id t).find? (fun o => o.id == id) =
      (l.find? (fun o => o.id == id)).map (fun o => { o with total := t }) := by
  induction l with
  | nil => rfl
  | cons a tl ih =>
    simp only [setTotal] at ih ⊢
    by_cases ha : a.id = id
    · simp [List.find?_cons, ha]
    · have hcond : (a.id == id) = false := by simp [ha]
      have hhead : (if (a.id == id) = true then { a with total := t } else a) = a := by
        simp [hcond]
      simp only [List.map_cons]
      rw [hhead]
      simp only [List.find?_cons, hcond]
      exact ih

/-- Lemma: `STATUS_FLOW` only advances a status by exactly one position in the
fixed sequence. -/
theorem statusFlow_rank (a b : String) (h : STATUS_FLOW a = some b) :
    statusRank b = statusRank a + 1 := by
  unfold STATUS_FLOW at h
  split at h <;> first
    | (injection h with h2; subst h2; rfl)
    | exact Option.noConfusion h

/-- Characterization of a successful `createOrder` run: the order is
persisted with status `pending`, all requested lines, and the total derived
from the catalog's current prices. -/
theorem createOrder_success (s : Store) (cid : Int) (pm : String) (req : List ReqItem)
    (hne : req ≠ []) (hex : req.all (fun i => itemExistsIn s i.itemId) = true) :
    createOrder s cid pm req true =
      ⟨201,
       some ⟨s.nextOrderId, cid, pm, "pending",
             (req.map (fun i => unitPriceOf s i.itemId * i.quantity)).sum⟩,
       ⟨s.items,
        setTotal (s.orders ++ [⟨s.nextOrderId, cid, pm, "pending", 0⟩]) s.nextOrderId
          ((req.map (fun i => unitPriceOf s i.itemId * i.quantity)).sum),
        s.orderItems ++ req.map (fun i => OrderItemRow.mk s.nextOrderId i.itemId i.quantity),
        s.nextOrderId + 1⟩⟩ := by
  have hempty : req.isEmpty = false := by simp [hne]
  have htot :
      (req.map (fun i => OrderItemRow.mk s.nextOrderId i.itemId i.quantity)).foldl
          (fun sum oi => sum + unitPriceIn s.items oi.itemId * oi.quantity) 0
        = (req.map (fun i => unitPriceIn s.items i.itemId * i.quantity)).sum := by
    rw [@foldl_add_map_sum OrderItemRow (fun oi => unitPriceIn s.items oi.itemId * oi.quantity)
      (req.map (fun i => OrderItemRow.mk s.nextOrderId i.itemId i.quantity)) 0]
    rw [List.map_map]
    exact zero_add _
  simp only [createOrder, hempty, hex, Bool.false_eq_true, if_false, if_true, unitPriceOf]
  rw [htot]

/-- Lemma: `createOrder` on an empty request answers 400 and does not touch the
store. -/
theorem createOrder_empty (s : Store) (cid : Int) (pm : String) (ok : Bool) :
    createOrder s cid pm [] ok = ⟨400, none, s⟩ := rfl

/-- Lemma: `createOrder` with some nonexistent itemId: the nested create violates
the foreign key, the whole create is rolled back, and the generic catch
answers 500 with the store unchanged. -/
theorem createOrder_missing_item (s : Store) (cid : Int) (pm : String) (req : List ReqItem)
    (hmiss : (req.all fun i => itemExistsIn s i.itemId) = false) (ok : Bool) :
    createOrder s cid pm req ok = ⟨500, none, s⟩ := by
  have hne : req.isEmpty = false := by
    cases req with
    | nil => simp at hmiss
    | cons a t => rfl
  simp only [createOrder, hne, hmiss, Bool.false_eq_true, if_false]

/-- Lemma: `createOrder` when the separate total-update write fails: the order row
(status pending, total 0) and all its lines are already persisted, the
catch answers 500, and no rollback happens. -/
theorem createOrder_update_failed (s : Store) (cid : Int) (pm : String) (req : List ReqItem)
    (hne : req ≠ []) (hex : req.all (fun i => itemExistsIn s i.itemId) = true) :
    createOrder s cid pm req false =
      ⟨500, none,
       ⟨s.items,
        s.orders ++ [⟨s.nextOrderId, cid, pm, "pending", 0⟩],
        s.orderItems ++ req.map (fun i => OrderItemRow.mk s.nextOrderId i.itemId i.quantity),
        s.nextOrderId + 1⟩⟩ := by
  have hempty : req.isEmpty = false := by simp [hne]
  simp only [createOrder, hempty, hex, Bool.false_eq_true, if_false, if_true]

/-- Lemma: `updateOrderStatus` once the order is loaded: the outcome is decided by
`STATUS_FLOW` on the loaded status. -/
theorem updateOrderStatus_found (s : Store) (id : Int) (o : OrderRow)
    (hfind : findOrder s id = some o) :
    updateOrderStatus s id =
      match STATUS_FLOW o.status with
      | none => ⟨400, none, s⟩
      | some nxt =>
        ⟨200, some { o with status := nxt },
         ⟨s.items, setStatus s.orders id nxt, s.orderItems, s.nextOrderId⟩⟩ := by
  unfold updateOrderStatus
  rw [hfind]

/-- Lemma: `createOrder` never reads any caller-supplied price field: mapping an
arbitrary price onto every request line changes nothing in the outcome. -/
theorem createOrder_ignores_price (s : Store) (cid : Int) (pm : String)
    (req : List ReqItem) (f : ReqItem → ℚ) (ok : Bool) :
    createOrder s cid pm (req.map (fun i => { i with price := f i })) ok
      = createOrder s cid pm req ok := by
  unfold createOrder
  simp only [List.map_map, List.all_map, isEmpty_map, Function.comp]
  rfl

/-! ### Claim theorems -/

/-- C2: the status transition function maps pending to preparing, preparing
to delivering, delivering to delivered and offers no transition out of
delivered; every order created via `createOrder` starts in status pending
(both the returned body and every persisted row that is not a pre-existing
one); and no invocation of the status-advance operation moves a status
backward or skips a state — whenever it changes a persisted status, the new
status is exactly one step forward in the fixed sequence. -/
theorem C2_status_machine :
    (STATUS_FLOW "pending" = some "preparing" ∧
     STATUS_FLOW "preparing" = some "delivering" ∧
     STATUS_FLOW "delivering" = some "delivered" ∧
     STATUS_FLOW "delivered" = none) ∧
    (∀ (s : Store) (cid : Int) (pm : String) (req : List ReqItem) (ok : Bool) (o : OrderRow),
      (createOrder s cid pm req ok).body = some o → o.status = "pending") ∧
    (∀ (s : Store) (cid : Int) (pm : String) (req : List ReqItem) (ok : Bool) (o : OrderRow),
      (∀ q ∈ s.orders, (q.id == s.nextOrderId) = false) →
      o ∈ (createOrder s cid pm req ok).store.orders →
      o ∈ s.orders ∨ o.status = "pending") ∧
    (∀ (s : Store) (id : Int) (o b : OrderRow),
      findOrder s id = some o →
      (updateOrderStatus s id).body = some b →
      STATUS_FLOW o.status = some b.status ∧
      statusRank b.status = statusRank o.status + 1 ∧
      findOrder (updateOrderStatus s id).store id = some b) := by
  refine ⟨⟨rfl, rfl, rfl, rfl⟩, ?_, ?_, ?_⟩
  · intro s cid pm req ok o hbody
    by_cases hreq : req = []
    · subst hreq
      rw [createOrder_empty] at hbody
      exact Option.noConfusion hbody
    · by_cases h2 : (req.all fun i => itemExistsIn s i.itemId) = true
      · cases ok with
        | true =>
          rw [createOrder_success s cid pm req hreq h2] at hbody
          obtain rfl := Option.some.inj hbody
          rfl
        | false =>
          rw [createOrder_update_failed s cid pm req hreq h2] at hbody
          exact Option.noConfusion hbody
      · simp only [Bool.not_eq_true] at h2
        rw [createOrder_missing_item s cid pm req h2 ok] at hbody
        exact Option.noConfusion hbody
  · intro s cid pm req ok o hfresh ho
    by_cases hreq : req = []
    · subst hreq
      rw [createOrder_empty] at ho
      exact Or.inl ho
    · by_cases h2 : (req.all fun i => itemExistsIn s i.itemId) = true
      · cases ok with
        | true =>
          rw [createOrder_success s cid pm req hreq h2] at ho
          replace ho :
              o ∈ setTotal (s.orders ++ [⟨s.nextOrderId, cid, pm, "pending", 0⟩])
                s.nextOrderId ((req.map fun i => unitPriceOf s i.itemId * i.quantity).sum) := ho
          simp only [setTotal, List.mem_map] at ho
          obtain ⟨q, hq, rfl⟩ := ho
          rcases List.mem_append.mp hq with hql | hqr
          · rw [if_neg (by simp [hfresh q hql])]
            exact Or.inl hql
          · simp only [List.mem_singleton] at hqr
            subst hqr
            rw [if_pos (by simp)]
            exact Or.inr rfl
        | false =>
          rw [createOrder_update_failed s cid pm req hreq h2] at ho
          replace ho : o ∈ s.orders ++ [⟨s.nextOrderId, cid, pm, "pending", 0⟩] := ho
          rcases List.mem_append.mp ho with hql | hqr
          · exact Or.inl hql
          · simp only [List.mem_singleton] at hqr
            subst hqr
            exact Or.inr rfl
      · simp only [Bool.not_eq_true] at h2
        rw [createOrder_missing_item s cid pm req h2 ok] at ho
        exact Or.inl ho
  · intro s id o b hfind hbody
    rw [updateOrderStatus_found s id o hfind] at hbody ⊢
    cases hflow : STATUS_FLOW o.status with
    | none =>
      rw [hflow] at hbody
      exact Option.noConfusion hbody
    | some nxt =>
      rw [hflow] at hbody
      obtain rfl := Option.some.inj hbody
      refine ⟨rfl, statusFlow_rank o.status nxt hflow, ?_⟩
      show (setStatus s.orders id nxt).find? (fun q => q.id == id)
        = some { o with status := nxt }
      rw [find?_setStatus]
      unfold findOrder at hfind
      rw [hfind]
      rfl

/-- C2 witness: the status-advance part of `C2_status_machine` applied to a
concrete one-order store in status pending. -/
theorem C2_status_machine_witness :
    STATUS_FLOW "pending" = some "preparing" ∧
    (STATUS_FLOW (⟨1, 9, "CASH", "pending", 5⟩ : OrderRow).status
        = some (⟨1, 9, "CASH", "preparing", 5⟩ : OrderRow).status ∧
      statusRank (⟨1, 9, "CASH", "preparing", 5⟩ : OrderRow).status
        = statusRank (⟨1, 9, "CASH", "pending", 5⟩ : OrderRow).status + 1 ∧
      findOrder (updateOrderStatus ⟨[], [⟨1, 9, "CASH", "pending", 5⟩], [], 2⟩ 1).store 1
        = some ⟨1, 9, "CASH", "preparing", 5⟩) :=
  ⟨C2_status_machine.1.1,
   C2_status_machine.2.2.2 ⟨[], [⟨1, 9, "CASH", "pending", 5⟩], [], 2⟩ 1
     ⟨1, 9, "CASH", "pending", 5⟩ ⟨1, 9, "CASH", "preparing", 5⟩ rfl rfl⟩

/-- C3: advancing an order that is already delivered answers 400 with the
store unchanged, and a repeated advance call fails identically. -/
theorem C3_terminal_rejected (s : Store) (id : Int) (o : OrderRow)
    (hfind : findOrder s id = some o) (hst : o.status = "delivered") :
    updateOrderStatus s id = ⟨400, none, s⟩ ∧
    updateOrderStatus (updateOrderStatus s id).store id = ⟨400, none, s⟩ := by
  have h1 : updateOrderStatus s id = ⟨400, none, s⟩ := by
    rw [updateOrderStatus_found s id o hfind, hst]
    rfl
  refine ⟨h1, ?_⟩
  rw [h1]
  exact h1

/-- C3 witness: a delivered order in a concrete store. -/
theorem C3_terminal_rejected_witness :
    updateOrderStatus ⟨[], [⟨1, 9, "CASH", "delivered", 5⟩], [], 2⟩ 1
      = ⟨400, none, ⟨[], [⟨1, 9, "CASH", "delivered", 5⟩], [], 2⟩⟩ :=
  (C3_terminal_rejected ⟨[], [⟨1, 9, "CASH", "delivered", 5⟩], [], 2⟩ 1
    ⟨1, 9, "CASH", "delivered", 5⟩ rfl rfl).1

/-- C5 counterexample: for a CLIENT principal (id 2) fetching order id 1
that does not exist, no order (and hence no matching owner) is present, yet
the operation answers 404, not the 403 the claim requires "regardless of
whether the order exists". -/
theorem C5_counterexample :
    findOrder ⟨[], [], [], 1⟩ 1 = none ∧
    getMyOrderById ⟨[], [], [], 1⟩ 2 1 = ⟨404, none, ⟨[], [], [], 1⟩⟩ ∧
    (404 : Nat) ≠ 403 :=
  ⟨rfl, rfl, by decide⟩

/-- C5 amended: when the order exists and its owning client differs from
the principal, the fetch answers 403 with no body and an unchanged store;
when the order does not exist it answers 404. -/
theorem C5_ownership_check (s : Store) (cid id : Int) :
    (∀ o : OrderRow, findOrder s id = some o → o.clientId ≠ cid →
      getMyOrderById s cid id = ⟨403, none, s⟩) ∧
    (findOrder s id = none → getMyOrderById s cid id = ⟨404, none, s⟩) := by
  constructor
  · intro o hf hown
    unfold getMyOrderById
    rw [hf]
    simp [hown]
  · intro hf
    unfold getMyOrderById
    rw [hf]

/-- C5 witness: client 2 fetching client 1's order answers 403. -/
theorem C5_ownership_check_witness :
    getMyOrderById ⟨[], [⟨1, 1, "CASH", "pending", 0⟩], [], 2⟩ 2 1
      = ⟨403, none, ⟨[], [⟨1, 1, "CASH", "pending", 0⟩], [], 2⟩⟩ :=
  (C5_ownership_check ⟨[], [⟨1, 1, "CASH", "pending", 0⟩], [], 2⟩ 2 1).1
    ⟨1, 1, "CASH", "pending", 0⟩ rfl (by decide)

/-- C7: creating an order with an empty items list is rejected with 400
before any persistence — both by the controller's guard and by the
validation schema on the route — and the store is left exactly as it was. -/
theorem C7_empty_rejected (s : Store) (cid : Int) (pm : String) (ok : Bool) :
    createOrder s cid pm [] ok = ⟨400, none, s⟩ ∧
    orderSchemaCheck ⟨pm, []⟩ = false ∧
    postOrders s cid ⟨pm, []⟩ ok = ⟨400, none, s⟩ := by
  refine ⟨rfl, ?_, ?_⟩
  · simp [orderSchemaCheck]
  · simp [postOrders, orderSchemaCheck]

/-- C1: for every order created via `createOrder` from a non-empty request
whose items all exist, the operation answers 201 with an order whose total
is the sum over all lines of the catalog's current unit price times the
line's quantity; the same order (same total) is persisted in the store
under the new id; and the whole outcome is independent of any price value
supplied in the caller's request lines. -/
theorem C1_total_derived (s : Store) (cid : Int) (pm : String)
    (req : List ReqItem) (prices : ReqItem → ℚ)
    (hne : req ≠ [])
    (hex : req.all (fun i => itemExistsIn s i.itemId) = true)
    (hfresh : ∀ q ∈ s.orders, (q.id == s.nextOrderId) = false) :
    ∃ o : OrderRow,
      (createOrder s cid pm req true).code = 201 ∧
      (createOrder s cid pm req true).body = some o ∧
      o.total = (req.map (fun i => unitPriceOf s i.itemId * i.quantity)).sum ∧
      findOrder (createOrder s cid pm req true).store s.nextOrderId = some o ∧
      createOrder s cid pm (req.map (fun i => { i with price := prices i })) true
        = createOrder s cid pm req true := by
  refine ⟨⟨s.nextOrderId, cid, pm, "pending",
          (req.map (fun i => unitPriceOf s i.itemId * i.quantity)).sum⟩,
    ?_, ?_, rfl, ?_, createOrder_ignores_price s cid pm req prices true⟩
  · rw [createOrder_success s cid pm req hne hex]
  · rw [createOrder_success s cid pm req hne hex]
  · rw [createOrder_success s cid pm req hne hex]
    show (setTotal (s.orders ++ [⟨s.nextOrderId, cid, pm, "pending", 0⟩]) s.nextOrderId
        ((req.map fun i => unitPriceOf s i.itemId * i.quantity).sum)).find?
          (fun o => o.id == s.nextOrderId)
      = some ⟨s.nextOrderId, cid, pm, "pending",
              (req.map (fun i => unitPriceOf s i.itemId * i.quantity)).sum⟩
    rw [find?_setTotal, List.find?_append]
    have h0 : s.orders.find? (fun o => o.id == s.nextOrderId) = none :=
      List.find?_eq_none.mpr (fun x hx => by simp [hfresh x hx])
    rw [h0]
    simp [List.find?_cons]

/-- C1 witness: a one-item catalog and a one-line request. -/
theorem C1_total_derived_witness :
    (createOrder ⟨[⟨1, "X", 5, "u", 1⟩], [], [], 1⟩ 7 "CASH" [⟨1, 2, 9⟩] true).code = 201 := by
  obtain ⟨o, h1, -, -, -, -⟩ :=
    C1_total_derived ⟨[⟨1, "X", 5, "u", 1⟩], [], [], 1⟩ 7 "CASH" [⟨1, 2, 9⟩]
      (fun _ => 0) (by decide) (by decide) (by decide)
  exact h1

/-- C4 counterexample: with a one-item catalog and a valid one-line request,
if the separate total-update write fails, the request answers 500 while the
order row (with lines, status pending, and total 0) remains persisted —
an intermediate state the claim says is never left behind. -/
theorem C4_counterexample :
    (createOrder ⟨[⟨1, "X", 5, "u", 1⟩], [], [], 1⟩ 7 "CASH" [⟨1, 2, 0⟩] false).code = 500 ∧
    findOrder (createOrder ⟨[⟨1, "X", 5, "u", 1⟩], [], [], 1⟩ 7 "CASH" [⟨1, 2, 0⟩] false).store 1
      = some ⟨1, 7, "CASH", "pending", 0⟩ ∧
    linesOf (createOrder ⟨[⟨1, "X", 5, "u", 1⟩], [], [], 1⟩ 7 "CASH" [⟨1, 2, 0⟩] false).store 1
      ≠ [] :=
  ⟨rfl, rfl, by decide⟩

/-- C4 amended: only the creation of the order row together with all its
lines is atomic; the computed total is written by a second, separate
update.  When that update fails, the order remains persisted with all its
lines and total 0 while the request answers 500. -/
theorem C4_not_atomic (s : Store) (cid : Int) (pm : String) (req : List ReqItem)
    (hne : req ≠ [])
    (hex : req.all (fun i => itemExistsIn s i.itemId) = true)
    (hfresh : ∀ q ∈ s.orders, (q.id == s.nextOrderId) = false) :
    (createOrder s cid pm req false).code = 500 ∧
    findOrder (createOrder s cid pm req false).store s.nextOrderId
      = some ⟨s.nextOrderId, cid, pm, "pending", 0⟩ ∧
    (createOrder s cid pm req false).store.orderItems
      = s.orderItems ++ req.map (fun i => OrderItemRow.mk s.nextOrderId i.itemId i.quantity) := by
  rw [createOrder_update_failed s cid pm req hne hex]
  refine ⟨rfl, ?_, rfl⟩
  show (s.orders ++ [(⟨s.nextOrderId, cid, pm, "pending", 0⟩ : OrderRow)]).find?
      (fun o => o.id == s.nextOrderId)
    = some ⟨s.nextOrderId, cid, pm, "pending", 0⟩
  rw [List.find?_append]
  have h0 : s.orders.find? (fun o => o.id == s.nextOrderId) = none :=
    List.find?_eq_none.mpr (fun x hx => by simp [hfresh x hx])
  rw [h0]
  simp [List.find?_cons]

/-- C4 witness: the amended statement at the counterexample's input. -/
theorem C4_not_atomic_witness :
    (createOrder ⟨[⟨1, "X", 5, "u", 1⟩], [], [], 1⟩ 7 "CASH" [⟨1, 2, 0⟩] false).code = 500 :=
  (C4_not_atomic ⟨[⟨1, "X", 5, "u", 1⟩], [], [], 1⟩ 7 "CASH" [⟨1, 2, 0⟩]
    (by decide) (by decide) (by decide)).1

/-- C6 counterexample: a request referencing itemId 2 when the catalog only
holds item 1 answers 500 (generic catch on the foreign-key violation), not
the 404 the claim requires. -/
theorem C6_counterexample :
    (createOrder ⟨[⟨1, "X", 5, "u", 1⟩], [], [], 1⟩ 7 "CASH" [⟨2, 1, 0⟩] true).code = 500 ∧
    (500 : Nat) ≠ 404 :=
  ⟨rfl, by decide⟩

/-- C6 amended: a create-order request in which some itemId does not exist
in the catalog fails with the generic 500 server error (the controller has
no 404 path at all), leaving the store unchanged. -/
theorem C6_missing_item_500 (s : Store) (cid : Int) (pm : String) (req : List ReqItem)
    (hmiss : (req.all fun i => itemExistsIn s i.itemId) = false) (ok : Bool) :
    createOrder s cid pm req ok = ⟨500, none, s⟩ ∧ (500 : Nat) ≠ 404 :=
  ⟨createOrder_missing_item s cid pm req hmiss ok, by decide⟩

/-- C6 witness: the amended statement at the counterexample's input. -/
theorem C6_missing_item_500_witness :
    createOrder ⟨[⟨1, "X", 5, "u", 1⟩], [], [], 1⟩ 7 "CASH" [⟨2, 1, 0⟩] true
      = ⟨500, none, ⟨[⟨1, "X", 5, "u", 1⟩], [], [], 1⟩⟩ :=
  (C6_missing_item_500 ⟨[⟨1, "X", 5, "u", 1⟩], [], [], 1⟩ 7 "CASH" [⟨2, 1, 0⟩]
    (by decide) true).1

/-- C8 counterexample: a request line with the non-integer quantity 1/2
passes `orderSchema` validation (the schema checks only
`z.number().positive()`, with no integrality constraint on quantity), so a
non-integer quantity is not rejected with ValidationError. -/
theorem C8_counterexample :
    orderSchemaCheck ⟨"CASH", [⟨1, mkRat 1 2, 0⟩]⟩ = true ∧
    (mkRat 1 2).den ≠ 1 :=
  ⟨by decide, by decide⟩

/-- C8 amended: validation accepts a body exactly when the payment method
is one of the four enum values, the items list is nonempty, and every
quantity is strictly positive — zero or negative quantities are rejected
with 400 before order creation, but positivity is the only constraint on
quantity (non-integer positive values pass). -/
theorem C8_quantity_validation (b : OrderBody) :
    (orderSchemaCheck b = true ↔
      b.paymentMethod ∈ paymentMethods ∧ b.items ≠ [] ∧ ∀ i ∈ b.items, 0 < i.quantity) ∧
    (∀ (s : Store) (cid : Int) (ok : Bool) (i : ReqItem), i ∈ b.items → i.quantity ≤ 0 →
      postOrders s cid b ok = ⟨400, none, s⟩) := by
  have hiff : orderSchemaCheck b = true ↔
      b.paymentMethod ∈ paymentMethods ∧ b.items ≠ [] ∧ ∀ i ∈ b.items, 0 < i.quantity := by
    unfold orderSchemaCheck
    simp only [Bool.and_eq_true, List.all_eq_true, decide_eq_true_eq,
      Bool.not_eq_true', List.isEmpty_eq_false_iff_exists_mem, List.contains_iff_exists_mem_beq]
    constructor
    · rintro ⟨⟨hc, hall⟩, hne⟩
      obtain ⟨x, hx, hbeq⟩ := hc
      refine ⟨?_, ?_, hall⟩
      · rw [show b.paymentMethod = x from by simpa using hbeq]
        exact hx
      · intro h0
        obtain ⟨y, hy⟩ := hne
        rw [h0] at hy
        exact List.not_mem_nil y hy
    · rintro ⟨hm, hne, hall⟩
      refine ⟨⟨⟨b.paymentMethod, hm, by simp⟩, hall⟩, ?_⟩
      cases hb : b.items with
      | nil => exact absurd hb hne
      | cons y t => exact ⟨y, by simp⟩
  refine ⟨hiff, ?_⟩
  intro s cid ok i hi hle
  cases hsc : orderSchemaCheck b with
  | false =>
    unfold postOrders
    rw [hsc]
    rfl
  | true =>
    exact absurd ((hiff.mp hsc).2.2 i hi) (not_lt.mpr hle)

/-- C8 witness: a zero quantity is rejected with 400 and no store change. -/
theorem C8_quantity_validation_witness :
    postOrders ⟨[], [], [], 1⟩ 7 ⟨"CASH", [⟨1, 0, 0⟩]⟩ true = ⟨400, none, ⟨[], [], [], 1⟩⟩ :=
  (C8_quantity_validation ⟨"CASH", [⟨1, 0, 0⟩]⟩).2 ⟨[], [], [], 1⟩ 7 true
    ⟨1, 0, 0⟩ (by simp) (by decide)

/-- C9: self-registration never lets the caller choose the role: whatever
the request body carries in its role field, the stored user's type is
CLIENT, and two runs differing only in the payload's role field produce
identical outcomes. -/
theorem C9_role_not_caller_controlled (db : List UserRow) (nid : Int) (b : RegisterBody) :
    (∀ u : UserRow, (createUser db nid b).2.1 = some u → u.type = "CLIENT") ∧
    (∀ u : UserRow, u ∈ (createUser db nid b).2.2 → u ∈ db ∨ u.type = "CLIENT") ∧
    (∀ r1 r2 : String,
      createUser db nid ⟨b.name, b.phone, b.email, b.password, r1⟩
        = createUser db nid ⟨b.name, b.phone, b.email, b.password, r2⟩) := by
  refine ⟨?_, ?_, ?_⟩
  · intro u hu
    unfold createUser at hu
    by_cases hdup : (db.any fun v => v.email == b.email) = true
    · rw [if_pos hdup] at hu
      exact Option.noConfusion hu
    · rw [if_neg hdup] at hu
      obtain rfl := Option.some.inj hu
      rfl
  · intro u hu
    unfold createUser at hu
    by_cases hdup : (db.any fun v => v.email == b.email) = true
    · rw [if_pos hdup] at hu
      exact Or.inl hu
    · rw [if_neg hdup] at hu
      replace hu : u ∈ db ++ [(⟨nid, b.name, b.phone, b.email,
        bcryptHash b.password, "CLIENT"⟩ : UserRow)] := hu
      rcases List.mem_append.mp hu with h | h
      · exact Or.inl h
      · simp only [List.mem_singleton] at h
        subst h
        exact Or.inr rfl
  · intro r1 r2
    rfl

/-- C9 witness: registering with role "ADMIN" in the payload still stores
type CLIENT. -/
theorem C9_role_not_caller_controlled_witness :
    (⟨1, "Ana", "34 999", "a@b.c", bcryptHash "pw", "CLIENT"⟩ : UserRow).type = "CLIENT" :=
  (C9_role_not_caller_controlled [] 1 ⟨"Ana", "34 999", "a@b.c", "pw", "ADMIN"⟩).1
    ⟨1, "Ana", "34 999", "a@b.c", bcryptHash "pw", "CLIENT"⟩ rfl

/-- C10 counterexample: a present-but-revoked token (here blacklisted after
logout) is answered with 403, not the 401 the claim requires for every
absence of a valid credential. -/
theorem C10_counterexample :
    autenticarToken ["tok".toList] (fun _ => some ⟨1, "CLIENT"⟩) (some "Bearer tok".toList)
      = Except.error 403 ∧
    (403 : Nat) ≠ 401 :=
  ⟨rfl, by decide⟩

/-- C10 amended: a missing token (no header, or a header not of the
`Bearer <token>` shape) is answered 401; a token that is present but fails
verification (malformed, expired or blacklisted) is answered 403, not 401;
a valid token passes with the decoded principal. -/
theorem C10_auth_status_codes (bl : List JsString) (jv : JsString → Option Principal)
    (h : Option JsString) :
    (extractBearer h = none → autenticarToken bl jv h = Except.error 401) ∧
    (∀ t, extractBearer h = some t → verifyToken bl jv t = none →
      autenticarToken bl jv h = Except.error 403) ∧
    (∀ t p, extractBearer h = some t → verifyToken bl jv t = some p →
      autenticarToken bl jv h = Except.ok p) := by
  refine ⟨?_, ?_, ?_⟩
  · intro he
    unfold autenticarToken
    rw [he]
  · intro t he hv
    unfold autenticarToken
    rw [he]
    show (match verifyToken bl jv t with
      | none => Except.error 403
      | some p => Except.ok p) = Except.error 403
    rw [hv]
  · intro t p he hv
    unfold autenticarToken
    rw [he]
    show (match verifyToken bl jv t with
      | none => Except.error 403
      | some q => Except.ok q) = Except.ok p
    rw [hv]

/-- C10 witness: a missing header is answered 401; a blacklisted token is
answered 403. -/
theorem C10_auth_status_codes_witness :
    autenticarToken [] (fun _ => none) none = Except.error 401 ∧
    autenticarToken ["tok".toList] (fun _ => some ⟨1, "CLIENT"⟩) (some "Bearer tok".toList)
      = Except.error 403 :=
  ⟨(C10_auth_status_codes [] (fun _ => none) none).1 rfl,
   (C10_auth_status_codes ["tok".toList] (fun _ => some ⟨1, "CLIENT"⟩)
      (some "Bearer tok".toList)).2.1 "tok".toList (by decide) (by decide)⟩

end Uaifood
